import Mathlib

/-!
Shallow embedding of the cb-mpc-go foreign-function binding layer
(the two C binding variants under src/internal/bindings/capi.cc and
src/pkg/cbmpc/internal/backend/capi.cc, plus
src/pkg/cbmpc/internal/backend/ctypes.cc).

Bytes are modelled as natural numbers, byte buffers as lists, C pointers
as Option values (none = null), and the external protocol engine as an
explicit function parameter.  malloc success is threaded as explicit
Boolean oracles so that allocation-failure paths are expressible.
Error codes from the external library's error.h are modelled as a small
inductive capturing their categories (only distinctness and zero-ness
matter to the bindings).
-/

namespace Cbmpc

/-- A byte buffer: the sequence of bytes an allocation holds. -/
abbrev Buf := List Nat

/-- Model of cmem_t: a data pointer (none = null) and a signed size field. -/
structure Cmem where
  data : Option Buf
  size : Int
deriving DecidableEq, Repr

/-- Model of cmems_t: contiguous data pointer, parallel size array pointer,
and a signed count. -/
structure Cmems where
  data : Option Buf
  sizes : Option (List Int)
  count : Int
deriving DecidableEq, Repr

/-- Return/error codes at the binding boundary.  SUCCESS is 0 in the C
code; E_BADARG, E_NET_GENERAL and E_CRYPTO are distinct nonzero codes
from the external library's error.h; engine errors are propagated
verbatim and modelled by their (nonzero) integer value. -/
inductive Rc where
  | ok
  | badarg
  | netGeneral
  | crypto
  | eng (e : Int)
deriving DecidableEq, Repr

/-- Reading size bytes through a cmem_t view (mem_t(m.data, m.size)). -/
def readBytes (m : Cmem) : Buf :=
  (m.data.getD []).take m.size.toNat

/-- alloc_and_copy (both capi.cc variants, lines 38-54 resp. 37-53):
allocates a fresh buffer of n bytes and copies the source into it; on
malloc failure, and also when n = 0 (malloc never runs and p stays
null), the returned view is null data / zero size.  The malloc outcome
is the explicit oracle allocOk. -/
def alloc_and_copy (src : Buf) (allocOk : Bool) : Cmem :=
  if 0 < src.length then
    if allocOk then { data := some src, size := (src.length : Int) }
    else { data := none, size := 0 }
  else { data := none, size := 0 }

/-- Result of free_cmem_view: the contents the allocation held at the
moment cgo_free released it (none when the pointer was null and nothing
was released), and the final state of the view. -/
structure FreeView where
  released : Option Buf
  view : Cmem
deriving DecidableEq, Repr

/-- free_cmem_view (src/internal/bindings/capi.cc lines 56-63): when the
view has non-null data and positive size, secure_bzero zeroes the first
size bytes before cgo_free releases the allocation; in every case the
view's fields are reset to null / 0. -/
def free_cmem_view (v : Cmem) : FreeView :=
  let released :=
    match v.data with
    | none => none
    | some l =>
      if 0 < v.size then
        some (List.replicate (min v.size.toNat l.length) 0 ++ l.drop v.size.toNat)
      else some l
  { released := released, view := { data := none, size := 0 } }

/-- alloc_and_copy_vector, bindings variant
(src/internal/bindings/capi.cc lines 67-120): an empty vector collapses
to an all-null result; otherwise one contiguous allocation of the total
size (only when the total is positive; a zero total leaves the data
pointer null), a size array with one entry per element, and count = n.
Malloc outcomes for the data and the size array are the oracles
dataOk and sizesOk. -/
def alloc_and_copy_vector_bindings (vec : List Buf) (dataOk sizesOk : Bool) : Cmems :=
  if vec.isEmpty then { data := none, sizes := none, count := 0 }
  else
    let total := (vec.map List.length).sum
    if 0 < total ∧ ¬dataOk then { data := none, sizes := none, count := 0 }
    else if ¬sizesOk then { data := none, sizes := none, count := 0 }
    else
      { data := if 0 < total then some vec.flatten else none
        sizes := some (vec.map (fun b => (b.length : Int)))
        count := (vec.length : Int) }

/-- alloc_and_copy_vector, backend variant
(src/pkg/cbmpc/internal/backend/capi.cc lines 57-115): identical to the
bindings variant except that a zero total size (all elements empty)
returns the all-null result before any allocation. -/
def alloc_and_copy_vector_backend (vec : List Buf) (dataOk sizesOk : Bool) : Cmems :=
  if vec.isEmpty then { data := none, sizes := none, count := 0 }
  else
    let total := (vec.map List.length).sum
    if total = 0 then { data := none, sizes := none, count := 0 }
    else if ¬dataOk then { data := none, sizes := none, count := 0 }
    else if ¬sizesOk then { data := none, sizes := none, count := 0 }
    else
      { data := some vec.flatten
        sizes := some (vec.map (fun b => (b.length : Int)))
        count := (vec.length : Int) }

/-! ## Transport adapter (src/internal/bindings/capi.cc lines 122-202)

The caller-supplied callback table cbmpc_go_transport holds three
callback pointers plus an opaque context.  The context is fixed inside
each callback closure here; a null function pointer is none.  The
receive callback returns an int status together with the cmem_t it
wrote; the batched receive callback returns a status together with the
out-array it filled (indexed positionally, one slot per requested
sender). -/

/-- Model of the cbmpc_go_transport callback table. -/
structure GoTransport where
  sendCb : Option (Nat → Buf → Int)
  receiveCb : Option (Nat → Int × Buf)
  receiveAllCb : Option (List Nat → Int × (Nat → Buf))

/-- go_transport_base::role_for (capi.cc lines 156-161): a negative or
out-of-range engine party index resolves to none, otherwise to the
mapped role identity. -/
def role_for (mapping : List Nat) (idx : Int) : Option Nat :=
  if idx < 0 then none
  else mapping.get? idx.toNat

/-- go_transport_base::send (capi.cc lines 127-135). -/
def transport_send (vt : GoTransport) (mapping : List Nat) (receiver : Int)
    (msg : Buf) : Rc :=
  match vt.sendCb with
  | none => .netGeneral
  | some cb =>
    match role_for mapping receiver with
    | none => .badarg
    | some role => if cb role msg = 0 then .ok else .netGeneral

/-- go_transport_base::receive (capi.cc lines 137-150): on a nonzero
callback status the scratch view is freed and E_NET_GENERAL returned;
on success the engine buffer is built from the callback's view, which
is then freed. -/
def transport_receive (vt : GoTransport) (mapping : List Nat) (sender : Int) :
    Except Rc Buf :=
  match vt.receiveCb with
  | none => .error .netGeneral
  | some cb =>
    match role_for mapping sender with
    | none => .error .badarg
    | some role =>
      let r := cb role
      if r.1 ≠ 0 then .error .netGeneral
      else .ok r.2

/-- std::vector::resize to n elements, default-constructing empty
buffers for new slots. -/
def vecResize (l : List Buf) (n : Nat) : List Buf :=
  l.take n ++ List.replicate (n - l.length) []

/-- go_transport_2p::receive_all (capi.cc lines 168-172): requires
exactly one sender; resizes the engine's message vector to one and
delegates to receive, which writes slot zero only on success.  The
incoming message vector state is threaded as msg0. -/
def receive_all_2p (vt : GoTransport) (mapping : List Nat)
    (senders : List Int) (msg0 : List Buf) : Rc × List Buf :=
  if senders.length ≠ 1 then (.badarg, msg0)
  else
    let m1 := vecResize msg0 1
    match transport_receive vt mapping (senders.headD 0) with
    | .ok buf => (.ok, [buf])
    | .error e => (e, m1)

/-- Resolution of a sender-index list to role identities, failing at the
first out-of-range index (the roles loop of capi.cc lines 185-189). -/
def resolveRoles (mapping : List Nat) : List Int → Option (List Nat)
  | [] => some []
  | s :: rest =>
    match role_for mapping s, resolveRoles mapping rest with
    | some r, some rs => some (r :: rs)
    | _, _ => none

/-- Observable outcome of go_transport_mp::receive_all: the status, the
engine's message vector, and the list of batched-callback invocations
that took place (each recorded as the role array passed to it). -/
structure MpRecvResult where
  rc : Rc
  message : List Buf
  calls : List (List Nat)
deriving Repr

/-- go_transport_mp::receive_all (capi.cc lines 179-201): a null
batched-receive callback is E_NET_GENERAL; the message vector is
resized to n; an empty request succeeds with no callback; an
out-of-range sender is E_BADARG before any callback; otherwise exactly
one batched callback runs over the resolved roles, a nonzero status
frees the scratch views and returns E_NET_GENERAL, and on success slot
i receives the callback's positional output i. -/
def receive_all_mp (vt : GoTransport) (mapping : List Nat)
    (senders : List Int) (msg0 : List Buf) : MpRecvResult :=
  match vt.receiveAllCb with
  | none => { rc := .netGeneral, message := msg0, calls := [] }
  | some cb =>
    let n := senders.length
    let m := vecResize msg0 n
    if n = 0 then { rc := .ok, message := m, calls := [] }
    else
      match resolveRoles mapping senders with
      | none => { rc := .badarg, message := m, calls := [] }
      | some roles =>
        let r := cb roles
        if r.1 ≠ 0 then { rc := .netGeneral, message := m, calls := [roles] }
        else
          { rc := .ok
            message := (List.range n).map r.2
            calls := [roles] }

/-! ## Session (job) construction (src/internal/bindings/capi.cc lines 229-278)

cbmpc_role_id is declared in cjob.h, which is part of this repository
but absent from src/.  Modelled from the spec: the Party Identity data
model (spec section 3) calls it "a small unsigned integer identifying
one participant by position", so role identities are Nat here.  The
names argument is a C array of C-string pointers; it is modelled as an
optional (nullable) list of optional (nullable) strings, and reading
past the array's end yields a null pointer in the model (the C caller
contract guarantees the array is long enough). -/

/-- The go_job2p wrapper: the two-party session state the constructor
assembles (index-to-identity mapping, local party, participant names). -/
structure Job2p where
  roles : List Nat
  self : Nat
  names : List String
deriving DecidableEq, Repr

/-- The go_jobmp wrapper: the multi-party session state. -/
structure Jobmp where
  roles : List Nat
  self : Nat
  names : List String
deriving DecidableEq, Repr

/-- cbmpc_job2p_new (capi.cc lines 229-247): null transport table or
names array, a local identity above 1, or a null name pointer in slot 0
or 1 fail (null session); otherwise the session carries the identity
mapping 0,1. -/
def cbmpc_job2p_new (t : Option GoTransport) (self : Nat)
    (names : Option (List (Option String))) : Option Job2p :=
  match t, names with
  | some _, some ns =>
    if 1 < self then none
    else
      match ns.getD 0 none, ns.getD 1 none with
      | some n0, some n1 => some { roles := [0, 1], self := self, names := [n0, n1] }
      | _, _ => none
  | _, _ => none

/-- cbmpc_jobmp_new (capi.cc lines 253-278): null transport table or
names array, fewer than two parties, a local identity not strictly below
the party count, or any null name pointer fail (null session); otherwise
the session carries the identity mapping over the range of the count. -/
def cbmpc_jobmp_new (t : Option GoTransport) (self : Nat) (n_parties : Nat)
    (names : Option (List (Option String))) : Option Jobmp :=
  match t, names with
  | some _, some ns =>
    if n_parties < 2 then none
    else if n_parties ≤ self then none
    else if (List.range n_parties).any (fun i => (ns.getD i none).isNone) then none
    else
      some { roles := List.range n_parties
             self := self
             names := (List.range n_parties).map (fun i => (ns.getD i none).getD "") }
  | _, _ => none

/-! ## ECDSA 2P sign entry points

Both variants validate arguments, build the mutable sid from sid_in,
call the engine's sign (external library, modelled as an explicit
function from the sid argument to either a propagated error or the
final sid and signature), then copy the two outputs.  If the sid copy
fails (null data despite a non-empty sid) the call returns E_BADARG
with sid_out already written as null/0; if the signature copy fails the
sid_out allocation is zeroed, freed and reset before E_BADARG is
returned. -/

/-- The sid buffer handed to the engine (both variants): the bytes of
sid_in when its data is non-null and its size positive, else empty. -/
def signSidArg (sid_in : Cmem) : Buf :=
  if sid_in.data.isSome ∧ 0 < sid_in.size then readBytes sid_in else []

/-- Observable outcome of a sign call: the return code, the values
written through the sid/sig out-parameters (none = the call returned
without writing that parameter), and the contents the sid_out
allocation held at the moment it was released during signature-failure
cleanup (none = no such cleanup release happened). -/
structure SignResult where
  ret : Rc
  sidOut : Option Cmem
  sigOut : Option Cmem
  sidReleased : Option Buf
deriving DecidableEq, Repr

/-- cbmpc_ecdsa2p_sign, backend variant
(src/pkg/cbmpc/internal/backend/capi.cc lines 250-283).  jobOk stands
for wrapper and wrapper->job non-null, keyOk for key and key->opaque
non-null.  The engine's ecdsa2pc::sign is the external library: it
takes the sid buffer and yields its error_t together with the final sid
and the signature it wrote.  When the returned status is not SUCCESS it
is propagated verbatim; the signature-copy failure cleanup inlines
secure_bzero + cgo_free + null/0 reset of sid_out. -/
def cbmpc_ecdsa2p_sign_backend (jobOk keyOk : Bool) (sid_in msg : Cmem)
    (sidOutPtr sigOutPtr : Bool) (eng : Buf → Rc × Buf × Buf)
    (sidAllocOk sigAllocOk : Bool) : SignResult :=
  if ¬jobOk ∨ ¬keyOk ∨ msg.data = none ∨ msg.size ≤ 0 ∨ ¬sidOutPtr ∨ ¬sigOutPtr then
    { ret := .badarg, sidOut := none, sigOut := none, sidReleased := none }
  else
    let r := eng (signSidArg sid_in)
    if r.1 ≠ .ok then { ret := r.1, sidOut := none, sigOut := none, sidReleased := none }
    else
      let sid2 := r.2.1
      let signature := r.2.2
      let sidOut := alloc_and_copy sid2 sidAllocOk
      if sidOut.data = none ∧ 0 < sid2.length then
        { ret := .badarg, sidOut := some sidOut, sigOut := none, sidReleased := none }
      else
        let sigOut := alloc_and_copy signature sigAllocOk
        if sigOut.data = none ∧ 0 < signature.length then
          { ret := .badarg
            sidOut := some { data := none, size := 0 }
            sigOut := some sigOut
            sidReleased := sidOut.data.map (fun l => List.replicate l.length 0) }
        else
          { ret := .ok, sidOut := some sidOut, sigOut := some sigOut, sidReleased := none }

/-- cbmpc_ecdsa2p_sign, bindings variant
(src/internal/bindings/capi.cc lines 505-538).  The key arrives as a
serialized cmem_t and deserialize_ecdsa2p_key runs first (keyDeser is
its error_t result on those bytes, propagated verbatim when not
SUCCESS); the signature-copy failure cleanup calls free_cmem_view on
sid_out. -/
def cbmpc_ecdsa2p_sign_bindings (jobOk : Bool) (sid_in key msg : Cmem)
    (sidOutPtr sigOutPtr : Bool) (keyDeser : Rc)
    (eng : Buf → Rc × Buf × Buf) (sidAllocOk sigAllocOk : Bool) : SignResult :=
  if ¬jobOk ∨ key.data = none ∨ key.size ≤ 0 ∨ msg.data = none ∨ msg.size ≤ 0 ∨
      ¬sidOutPtr ∨ ¬sigOutPtr then
    { ret := .badarg, sidOut := none, sigOut := none, sidReleased := none }
  else if keyDeser ≠ .ok then
    { ret := keyDeser, sidOut := none, sigOut := none, sidReleased := none }
  else
    let r := eng (signSidArg sid_in)
    if r.1 ≠ .ok then { ret := r.1, sidOut := none, sigOut := none, sidReleased := none }
    else
      let sid2 := r.2.1
      let signature := r.2.2
      let sidOut := alloc_and_copy sid2 sidAllocOk
      if sidOut.data = none ∧ 0 < sid2.length then
        { ret := .badarg, sidOut := some sidOut, sigOut := none, sidReleased := none }
      else
        let sigOut := alloc_and_copy signature sigAllocOk
        if sigOut.data = none ∧ 0 < signature.length then
          { ret := .badarg
            sidOut := some (free_cmem_view sidOut).view
            sigOut := some sigOut
            sidReleased := (free_cmem_view sidOut).released }
        else
          { ret := .ok, sidOut := some sidOut, sigOut := some sigOut, sidReleased := none }

/-! ## Object destruction entry points

Each destruction function is modelled as the list of heap addresses it
deallocates, in deallocation order.  C++ delete on a null pointer is a
well-defined no-op and contributes nothing. -/

/-- C++ delete: deallocates the pointed-to object, a no-op on null. -/
def cppDelete (p : Option Nat) : List Nat :=
  match p with
  | none => []
  | some a => [a]

/-- A key handle struct (cbmpc_ecdsa2p_key / cbmpc_schnorr2p_key): the
address of the wrapper allocation and the wrapper's inner engine-object
pointer. -/
structure KeyHandle where
  addr : Nat
  inner : Option Nat
deriving DecidableEq, Repr

/-- cbmpc_ecdsa2p_key_free
(src/pkg/cbmpc/internal/backend/ctypes.cc lines 254-259): returns at
once on a null handle; otherwise deletes the inner key object, then the
wrapper. -/
def cbmpc_ecdsa2p_key_free (key : Option KeyHandle) : List Nat :=
  match key with
  | none => []
  | some k => cppDelete k.inner ++ [k.addr]

/-- cbmpc_schnorr2p_key_free
(src/pkg/cbmpc/internal/backend/capi.cc lines 1176-1182): deletes the
inner key object and the wrapper only when both the handle and its
inner pointer are non-null. -/
def cbmpc_schnorr2p_key_free (key : Option KeyHandle) : List Nat :=
  match key with
  | none => []
  | some k =>
    match k.inner with
    | none => []
    | some o => [o, k.addr]

/-- cbmpc_ecc_point_free
(src/pkg/cbmpc/internal/backend/capi.cc lines 695-700): deletes the
point object only when the handle is non-null. -/
def cbmpc_ecc_point_free (point : Option Nat) : List Nat :=
  match point with
  | none => []
  | some a => [a]

/-- cbmpc_ec_elgamal_commitment_free
(src/pkg/cbmpc/internal/backend/capi.cc lines 937-942): deletes the
commitment object only when the handle is non-null. -/
def cbmpc_ec_elgamal_commitment_free (commitment : Option Nat) : List Nat :=
  match commitment with
  | none => []
  | some a => [a]

/-- cbmpc_job2p_free (src/internal/bindings/capi.cc lines 249-251):
plain C++ delete of the wrapper, a no-op on null. -/
def cbmpc_job2p_free (j : Option Nat) : List Nat :=
  cppDelete j

/-- cbmpc_jobmp_free (src/internal/bindings/capi.cc lines 280-282):
plain C++ delete of the wrapper, a no-op on null. -/
def cbmpc_jobmp_free (j : Option Nat) : List Nat :=
  cppDelete j

/-! ## Scalar handles (src/pkg/cbmpc/internal/backend/capi.cc lines 611-661)

A scalar handle is a cmem_t whose data field holds a pointer to a
heap-allocated bn_t big-number object and whose size field is 0.  The
heap of live bn_t objects is explicit: addresses are allocated from a
counter and map to the big-number values (bn_t values produced here are
nonnegative, so Int values stand in for them).  Dereferencing an
address that is not live is undefined behavior, modelled as none. -/

/-- A scalar handle: cmem_t reinterpreted, the data field being a bn_t
object address (none = null) rather than a byte pointer. -/
structure ScalarCmem where
  data : Option Nat
  size : Int
deriving DecidableEq, Repr

/-- The heap of live bn_t objects. -/
structure ScalarHeap where
  next : Nat
  objs : List (Nat × Int)
deriving DecidableEq, Repr

/-- Look up the bn_t object at an address. -/
def heapGet (h : ScalarHeap) (a : Nat) : Option Int :=
  (h.objs.find? (fun p => p.1 == a)).map (fun p => p.2)

/-- bn_t::from_bin: big-endian bytes to a nonnegative big number. -/
def bn_from_bin (bytes : Buf) : Int :=
  ((bytes.foldl (fun a b => a * 256 + b) 0 : Nat) : Int)

/-- Minimal big-endian byte representation of a natural number
(BN_bn2bin: zero serializes to the empty buffer). -/
def natToBE : Nat → Buf
  | 0 => []
  | n + 1 => natToBE ((n + 1) / 256) ++ [(n + 1) % 256]
decreasing_by exact Nat.div_lt_self (Nat.succ_pos n) (by decide)

/-- bn_t::to_bin over the nonnegative values arising here. -/
def bn_to_bin (v : Int) : Buf :=
  natToBE v.toNat

/-- The leading decimal digits of a string (BN_dec2bn parses the
longest decimal digit run at the front). -/
def decDigits : List Char → List Char
  | [] => []
  | c :: rest => if c.isDigit then c :: decDigits rest else []

/-- bn_t::from_string: value of the leading decimal digit run. -/
def decVal (s : String) : Nat :=
  (decDigits s.toList).foldl (fun a c => a * 10 + (c.toNat - 48)) 0

/-- cbmpc_scalar_from_bytes (backend capi.cc lines 611-624): null or
non-positive-size byte input, or a null out pointer, is E_BADARG;
otherwise a fresh bn_t is allocated holding the big-endian value, and
the handle written out is its address with a size field of 0. -/
def cbmpc_scalar_from_bytes (h : ScalarHeap) (bytes : Cmem) (outPtrOk : Bool) :
    ScalarHeap × Rc × Option ScalarCmem :=
  if bytes.data = none ∨ bytes.size ≤ 0 ∨ ¬outPtrOk then (h, .badarg, none)
  else
    ({ next := h.next + 1, objs := (h.next, bn_from_bin (readBytes bytes)) :: h.objs },
     .ok, some { data := some h.next, size := 0 })

/-- cbmpc_scalar_from_string (backend capi.cc lines 626-639): a null
string or out pointer is E_BADARG; otherwise a fresh bn_t holding the
decimal value, with the same address-plus-zero-size handle shape. -/
def cbmpc_scalar_from_string (h : ScalarHeap) (str : Option String) (outPtrOk : Bool) :
    ScalarHeap × Rc × Option ScalarCmem :=
  match str with
  | none => (h, .badarg, none)
  | some s =>
    if ¬outPtrOk then (h, .badarg, none)
    else
      ({ next := h.next + 1, objs := (h.next, (decVal s : Int)) :: h.objs },
       .ok, some { data := some h.next, size := 0 })

/-- cbmpc_scalar_to_bytes (backend capi.cc lines 641-654): a null data
field or out pointer is E_BADARG; otherwise the data field is
dereferenced as a bn_t pointer (the size field is never read) and the
serialized bytes are copied out.  A dangling address is undefined
behavior (none). -/
def cbmpc_scalar_to_bytes (h : ScalarHeap) (scalar : ScalarCmem)
    (outPtrOk allocOk : Bool) : Option (Rc × Option Cmem) :=
  match scalar.data with
  | none => some (.badarg, none)
  | some a =>
    if ¬outPtrOk then some (.badarg, none)
    else (heapGet h a).map (fun v => (.ok, some (alloc_and_copy (bn_to_bin v) allocOk)))

/-- cbmpc_scalar_free (backend capi.cc lines 656-661): a null data
field does nothing; otherwise the data field is deleted as a bn_t
pointer (the size field is never read).  Deleting a dead address is
undefined behavior (none). -/
def cbmpc_scalar_free (h : ScalarHeap) (scalar : ScalarCmem) : Option ScalarHeap :=
  match scalar.data with
  | none => some h
  | some a =>
    if (heapGet h a).isSome then
      some { next := h.next, objs := h.objs.filter (fun p => p.1 != a) }
    else none

/-! ## Concrete callback tables used to exercise the adapter -/

/-- A callback table whose primitives all succeed: send returns 0,
receive returns the sender role followed by 7, the batched receive
returns, at each position, the role at that position followed by the
position. -/
def vtOkEx : GoTransport :=
  { sendCb := some (fun _ _ => 0)
    receiveCb := some (fun r => (0, [r, 7]))
    receiveAllCb := some (fun roles => (0, fun i => [roles.getD i 0, i])) }

/-- A callback table with every entry null. -/
def vtNullEx : GoTransport :=
  { sendCb := none, receiveCb := none, receiveAllCb := none }

/-- A callback table whose primitives all report nonzero statuses. -/
def vtFailEx : GoTransport :=
  { sendCb := some (fun _ _ => 3)
    receiveCb := some (fun r => (5, [r]))
    receiveAllCb := some (fun _ => (7, fun _ => [])) }

/-- A concrete engine for the sign entry points that satisfies the
use-or-generate sid contract: an empty sid is replaced by the generated
value 7 and a non-empty sid is kept; the signature is 9, 9. -/
def engEx : Buf → Rc × Buf × Buf :=
  fun s => (.ok, if s.isEmpty then [7] else s, [9, 9])

/-- A concrete engine that always succeeds with sid 1, 1 and signature
2, 2, used to drive the allocation-failure cleanup path. -/
def engConstEx : Buf → Rc × Buf × Buf :=
  fun _ => (.ok, [1, 1], [2, 2])

/-! ## Theorems -/

/-- C9: every object destruction function applied to a null handle is a
no-op: it deallocates nothing, raises no error, and leaves all state
unchanged (for the scalar free, the heap of live big-number objects is
returned untouched whatever the handle's size field holds). -/
theorem C9_null_handle_free_noop :
    cbmpc_ecdsa2p_key_free none = [] ∧
    cbmpc_schnorr2p_key_free none = [] ∧
    (∀ (h : ScalarHeap) (s : Int),
      cbmpc_scalar_free h { data := none, size := s } = some h) ∧
    cbmpc_ecc_point_free none = [] ∧
    cbmpc_ec_elgamal_commitment_free none = [] ∧
    cbmpc_job2p_free none = [] ∧
    cbmpc_jobmp_free none = [] :=
  ⟨rfl, rfl, fun _ _ => rfl, rfl, rfl, rfl, rfl⟩

/-- C8: free_cmem_view, on any well-formed view with non-null data and
positive size, zeroes the buffer contents before the allocation is
released, and in every case (null or empty views included) leaves the
view with a null data pointer and zero size. -/
theorem C8_free_cmem_view_zeroes_and_resets :
    (∀ (v : Cmem) (l : Buf), v.data = some l → v.size = (l.length : Int) →
      0 < v.size → (free_cmem_view v).released = some (List.replicate l.length 0)) ∧
    (∀ v : Cmem, (free_cmem_view v).view = { data := none, size := 0 }) := by
  constructor
  · intro v l hd hs hpos
    simp only [free_cmem_view, hd, hs, hpos, if_pos]
    simp
    intro h
    simp [h]
  · intro v
    rfl

/-- C8 witness: a concrete two-byte view is zeroed at release and reset
to null/0. -/
theorem C8_witness :
    (free_cmem_view { data := some [5, 6], size := 2 }).released =
      some (List.replicate ([5, 6] : Buf).length 0) ∧
    (free_cmem_view { data := some [5, 6], size := 2 }).view =
      { data := none, size := 0 } :=
  ⟨C8_free_cmem_view_zeroes_and_resets.1 _ [5, 6] rfl (by decide) (by decide),
   C8_free_cmem_view_zeroes_and_resets.2 _⟩

/-- C3: the two-party adapter's receive_all fails with E_BADARG on any
sender list whose length is not exactly one, and on a singleton list it
returns the one-element message list holding exactly the result of
receive on that sender. -/
theorem C3_receive_all_2p_single_sender :
    (∀ (vt : GoTransport) (mapping : List Nat) (senders : List Int) (msg0 : List Buf),
      senders.length ≠ 1 → (receive_all_2p vt mapping senders msg0).1 = .badarg) ∧
    (∀ (vt : GoTransport) (mapping : List Nat) (s : Int) (msg0 : List Buf) (b : Buf),
      transport_receive vt mapping s = .ok b →
      receive_all_2p vt mapping [s] msg0 = (.ok, [b])) := by
  constructor
  · intro vt mapping senders msg0 hlen
    simp [receive_all_2p, hlen]
  · intro vt mapping s msg0 b hrecv
    simp [receive_all_2p, hrecv]

/-- C3 witness: with the all-succeeding callback table and identity
mapping over two parties, a two-sender request fails with E_BADARG and
a singleton request returns exactly the receive result. -/
theorem C3_witness :
    (receive_all_2p vtOkEx [0, 1] [0, 1] []).1 = Rc.badarg ∧
    receive_all_2p vtOkEx [0, 1] [1] [] = (Rc.ok, [[1, 7]]) :=
  ⟨C3_receive_all_2p_single_sender.1 vtOkEx [0, 1] [0, 1] [] (by decide),
   C3_receive_all_2p_single_sender.2 vtOkEx [0, 1] 1 [] [1, 7] rfl⟩

/-- C6: the two-party session constructor succeeds exactly when the
transport table and names array are non-null, the local identity is 0
or 1, and both name pointers are non-null, and any produced session's
index-to-identity mapping is the identity map on 0,1; the multi-party
constructor succeeds exactly when the table and array are non-null, the
count is at least 2, the local identity is below the count, and all
name pointers are non-null, and any produced session's mapping is the
identity map over the range of the count. -/
theorem C6_session_constructor_validation :
    (∀ (t : Option GoTransport) (self : Nat) (names : Option (List (Option String))),
      (cbmpc_job2p_new t self names).isSome ↔
        (t.isSome ∧ ∃ ns, names = some ns ∧ self ≤ 1 ∧
          (ns.getD 0 none).isSome ∧ (ns.getD 1 none).isSome)) ∧
    (∀ t self names j, cbmpc_job2p_new t self names = some j → j.roles = [0, 1]) ∧
    (∀ (t : Option GoTransport) (self n : Nat) (names : Option (List (Option String))),
      (cbmpc_jobmp_new t self n names).isSome ↔
        (t.isSome ∧ ∃ ns, names = some ns ∧ 2 ≤ n ∧ self < n ∧
          ∀ i < n, (ns.getD i none).isSome)) ∧
    (∀ t self n names j, cbmpc_jobmp_new t self n names = some j → j.roles = List.range n) := by
  refine ⟨?_, ?_, ?_, ?_⟩
  · intro t self names
    cases t with
    | none => simp [cbmpc_job2p_new]
    | some vt =>
      cases names with
      | none => simp [cbmpc_job2p_new]
      | some ns =>
        by_cases hs : 1 < self
        · have hns : ¬ self ≤ 1 := not_le.mpr hs
          simp [cbmpc_job2p_new, hs, hns]
        · cases h0 : ns[0]?.getD none with
          | none =>
            simp [cbmpc_job2p_new, hs, List.getD_eq_getElem?_getD, h0]
          | some n0 =>
            cases h1 : ns[1]?.getD none with
            | none =>
              simp [cbmpc_job2p_new, hs, List.getD_eq_getElem?_getD, h0, h1]
            | some n1 =>
              simp [cbmpc_job2p_new, hs, List.getD_eq_getElem?_getD, h0, h1]
              omega
  · intro t self names j hj
    cases t with
    | none => simp [cbmpc_job2p_new] at hj
    | some vt =>
      cases names with
      | none => simp [cbmpc_job2p_new] at hj
      | some ns =>
        by_cases hs : 1 < self
        · simp [cbmpc_job2p_new, hs] at hj
        · cases h0 : ns[0]?.getD none with
          | none =>
            simp [cbmpc_job2p_new, hs, List.getD_eq_getElem?_getD, h0] at hj
          | some n0 =>
            cases h1 : ns[1]?.getD none with
            | none =>
              simp [cbmpc_job2p_new, hs, List.getD_eq_getElem?_getD, h0, h1] at hj
            | some n1 =>
              simp [cbmpc_job2p_new, hs, List.getD_eq_getElem?_getD, h0, h1] at hj
              subst hj
              rfl
  · intro t self n names
    cases t with
    | none => simp [cbmpc_jobmp_new]
    | some vt =>
      cases names with
      | none => simp [cbmpc_jobmp_new]
      | some ns =>
        simp only [cbmpc_jobmp_new, List.getD_eq_getElem?_getD]
        by_cases h2 : n < 2
        · have hn2 : ¬ 2 ≤ n := not_le.mpr h2
          simp [h2, hn2]
        · by_cases hself : n ≤ self
          · have hlt : ¬ self < n := not_lt.mpr hself
            simp [h2, hself, hlt]
          · by_cases hany :
              ((List.range n).any fun i => (ns[i]?.getD none).isNone) = true
            · simp only [h2, if_false, hself, hany, if_true, Option.isSome_none,
                Bool.false_eq_true, false_iff, Option.isSome_some, true_and]
              simp only [List.any_eq_true, List.mem_range,
                Option.isNone_iff_eq_none] at hany
              obtain ⟨i, hi, hnone⟩ := hany
              rintro ⟨ns2, hns2, _, _, hall⟩
              cases hns2
              have := hall i hi
              rw [hnone] at this
              simp at this
            · simp only [h2, if_false, hself, hany, if_true, Option.isSome_some,
                true_iff, true_and]
              simp only [List.any_eq_true, List.mem_range, not_exists,
                Option.isNone_iff_eq_none] at hany
              simp only [Bool.false_eq_true, if_false, Option.isSome_some,
                true_iff]
              refine ⟨ns, rfl, not_lt.mp h2, not_le.mp hself, ?_⟩
              intro i hi
              have hne := hany i
              simp only [hi, forall_const, true_implies] at hne
              cases h : ns[i]?.getD none with
              | none => exact absurd h (by simpa using hne)
              | some v => rfl
  · intro t self n names j hj
    cases t with
    | none => simp [cbmpc_jobmp_new] at hj
    | some vt =>
      cases names with
      | none => simp [cbmpc_jobmp_new] at hj
      | some ns =>
        by_cases h2 : n < 2
        · simp [cbmpc_jobmp_new, h2] at hj
        · by_cases hself : n ≤ self
          · simp [cbmpc_jobmp_new, h2, hself] at hj
          · by_cases hany :
              ((List.range n).any fun i => (ns[i]?.getD none).isNone) = true
            · simp [cbmpc_jobmp_new, List.getD_eq_getElem?_getD, h2, hself,
                hany] at hj
            · simp [cbmpc_jobmp_new, List.getD_eq_getElem?_getD, h2, hself,
                hany] at hj
              rw [← hj]

/-- C6 witness: concrete constructions exercising both constructors in
their success and failure cases. -/
theorem C6_witness :
    (cbmpc_job2p_new (some vtOkEx) 0 (some [some "P1", some "P2"])).isSome ∧
    (∀ j, cbmpc_job2p_new (some vtOkEx) 0 (some [some "P1", some "P2"]) = some j →
      j.roles = [0, 1]) ∧
    ¬ (cbmpc_jobmp_new (some vtOkEx) 3 3 (some [some "A", some "B", some "C"])).isSome ∧
    (∀ j, cbmpc_jobmp_new (some vtOkEx) 1 3 (some [some "A", some "B", some "C"]) = some j →
      j.roles = List.range 3) := by
  refine ⟨?_, ?_, ?_, ?_⟩
  · exact (C6_session_constructor_validation.1 (some vtOkEx) 0
      (some [some "P1", some "P2"])).mpr
      ⟨rfl, [some "P1", some "P2"], rfl, by decide, rfl, rfl⟩
  · intro j hj
    exact C6_session_constructor_validation.2.1 (some vtOkEx) 0
      (some [some "P1", some "P2"]) j hj
  · intro h
    have := (C6_session_constructor_validation.2.2.1 (some vtOkEx) 3 3
      (some [some "A", some "B", some "C"])).mp h
    omega
  · intro j hj
    exact C6_session_constructor_validation.2.2.2 (some vtOkEx) 1 3
      (some [some "A", some "B", some "C"]) j hj

/-- C7 counterexample: in the bindings variant
(src/internal/bindings/capi.cc lines 67-120) a one-element list whose
element has length zero — an all-empty input — returns count 1, not
count 0: only the empty list collapses to a zero count there. -/
theorem C7_counterexample :
    (alloc_and_copy_vector_bindings [[]] true true).count ≠ 0 ∧
    (alloc_and_copy_vector_bindings [[]] true true).data = none ∧
    (alloc_and_copy_vector_bindings [[]] true true).count = 1 := by
  decide

/-- C7 amended: the backend variant collapses every all-empty input
(empty list, or every element of length zero) to a null-data
zero-count result; the bindings variant collapses only the empty list,
and on a non-empty all-zero-length input returns null data with a
zero-filled size array and count = n; in both variants, whenever a
size array is produced, it has one entry per logical buffer (the
element lengths in order) and the contiguous allocation's size equals
the sum of the element lengths. -/
theorem C7_alloc_and_copy_vector_amended :
    (∀ dataOk sizesOk : Bool,
      alloc_and_copy_vector_backend [] dataOk sizesOk =
        { data := none, sizes := none, count := 0 }) ∧
    (∀ (vec : List Buf) (dataOk sizesOk : Bool),
      (vec.map List.length).sum = 0 →
      alloc_and_copy_vector_backend vec dataOk sizesOk =
        { data := none, sizes := none, count := 0 }) ∧
    (∀ dataOk sizesOk : Bool,
      alloc_and_copy_vector_bindings [] dataOk sizesOk =
        { data := none, sizes := none, count := 0 }) ∧
    (∀ vec : List Buf, vec ≠ [] → (vec.map List.length).sum = 0 →
      alloc_and_copy_vector_bindings vec true true =
        { data := none
          sizes := some (vec.map (fun b => (b.length : Int)))
          count := (vec.length : Int) }) ∧
    (∀ (vec : List Buf) (dataOk sizesOk : Bool),
      (alloc_and_copy_vector_bindings vec dataOk sizesOk).sizes = none ∨
      ((alloc_and_copy_vector_bindings vec dataOk sizesOk).sizes =
          some (vec.map (fun b => (b.length : Int))) ∧
        ((alloc_and_copy_vector_bindings vec dataOk sizesOk).data.getD []).length =
          (vec.map List.length).sum ∧
        (alloc_and_copy_vector_bindings vec dataOk sizesOk).count = (vec.length : Int))) ∧
    (∀ (vec : List Buf) (dataOk sizesOk : Bool),
      (alloc_and_copy_vector_backend vec dataOk sizesOk).sizes = none ∨
      ((alloc_and_copy_vector_backend vec dataOk sizesOk).sizes =
          some (vec.map (fun b => (b.length : Int))) ∧
        ((alloc_and_copy_vector_backend vec dataOk sizesOk).data.getD []).length =
          (vec.map List.length).sum ∧
        (alloc_and_copy_vector_backend vec dataOk sizesOk).count = (vec.length : Int))) := by
  refine ⟨?_, ?_, ?_, ?_, ?_, ?_⟩
  · intro dataOk sizesOk
    rfl
  · intro vec dataOk sizesOk hsum
    cases vec with
    | nil => rfl
    | cons b rest =>
      simp only [List.map_cons, List.sum_cons] at hsum
      have hb0 : b.length = 0 := by omega
      have hrest : (List.map List.length rest).sum = 0 := by omega
      have hb : b = [] := List.length_eq_zero.mp hb0
      subst hb
      simp [alloc_and_copy_vector_backend, hrest]
  · intro dataOk sizesOk
    rfl
  · intro vec hne hsum
    cases vec with
    | nil => exact absurd rfl hne
    | cons b rest =>
      simp only [List.map_cons, List.sum_cons] at hsum
      have hb0 : b.length = 0 := by omega
      have hrest : (List.map List.length rest).sum = 0 := by omega
      have hb : b = [] := List.length_eq_zero.mp hb0
      subst hb
      simp [alloc_and_copy_vector_bindings, hrest]
  · intro vec dataOk sizesOk
    simp only [alloc_and_copy_vector_bindings]
    split
    · left
      rfl
    · split
      · left
        rfl
      · split
        · left
          rfl
        · right
          refine ⟨rfl, ?_, rfl⟩
          split
          next htot => simp [List.length_flatten]
          next htot => simp at htot ⊢; omega
  · intro vec dataOk sizesOk
    simp only [alloc_and_copy_vector_backend]
    split
    · left
      rfl
    · split
      · left
        rfl
      · split
        · left
          rfl
        · split
          · left
            rfl
          · right
            refine ⟨rfl, ?_, rfl⟩
            simp [List.length_flatten]

/-- C7 witness: concrete inputs exercising the all-empty collapse in
both variants and the size/sum invariant. -/
theorem C7_witness :
    alloc_and_copy_vector_backend [[], []] true true =
      { data := none, sizes := none, count := 0 } ∧
    alloc_and_copy_vector_bindings [[], []] true true =
      { data := none, sizes := some [0, 0], count := 2 } ∧
    (([3, 1] : List Int) = [[1, 2, 3], [4]].map (fun b : Buf => (b.length : Int)) ∧
      ((alloc_and_copy_vector_bindings [[1, 2, 3], [4]] true true).data.getD []).length =
        ([[1, 2, 3], [4]].map List.length).sum ∧
      (alloc_and_copy_vector_bindings [[1, 2, 3], [4]] true true).count = 2) := by
  refine ⟨?_, ?_, ?_⟩
  · exact C7_alloc_and_copy_vector_amended.2.1 [[], []] true true (by decide)
  · exact C7_alloc_and_copy_vector_amended.2.2.2.1 [[], []] (by decide) (by decide)
  · have h := (C7_alloc_and_copy_vector_amended.2.2.2.2.1 [[1, 2, 3], [4]]
      true true).resolve_left (by decide)
    exact ⟨by decide, h.2.1, h.2.2⟩

/-- C5 counterexample: a null callback table entry is an argument-shape
violation by the claim's reading, yet send on a table with a null send
entry returns the transport-failure code E_NET_GENERAL, not E_BADARG
(src/internal/bindings/capi.cc line 128, likewise lines 138 and 180 for
receive and receive_all). -/
theorem C5_counterexample :
    transport_send vtNullEx [0, 1] 1 [1, 2] = Rc.netGeneral ∧
    transport_receive vtNullEx [0, 1] 1 = Except.error Rc.netGeneral ∧
    (receive_all_mp vtNullEx [0, 1, 2] [0, 1] []).rc = Rc.netGeneral ∧
    Rc.netGeneral ≠ Rc.badarg :=
  ⟨rfl, rfl, rfl, by decide⟩

/-- C5 amended: every nonzero status reported by a caller-supplied
callback primitive maps to the transport-failure code E_NET_GENERAL;
an out-of-range or negative party index and a wrong sender count map to
E_BADARG; a null callback table entry, however, also maps to
E_NET_GENERAL rather than E_BADARG. -/
theorem C5_error_category_mapping :
    (∀ (mapping : List Nat) (idx : Int), idx < 0 → role_for mapping idx = none) ∧
    (∀ (mapping : List Nat) (idx : Int), mapping.length ≤ idx.toNat →
      role_for mapping idx = none) ∧
    (∀ (vt : GoTransport) (mapping : List Nat) (receiver : Int) (msg : Buf)
       (cb : Nat → Buf → Int) (role : Nat), vt.sendCb = some cb →
      role_for mapping receiver = some role → cb role msg ≠ 0 →
      transport_send vt mapping receiver msg = .netGeneral) ∧
    (∀ (vt : GoTransport) (mapping : List Nat) (sender : Int)
       (cb : Nat → Int × Buf) (role : Nat), vt.receiveCb = some cb →
      role_for mapping sender = some role → (cb role).1 ≠ 0 →
      transport_receive vt mapping sender = .error .netGeneral) ∧
    (∀ (vt : GoTransport) (mapping : List Nat) (senders : List Int) (msg0 : List Buf)
       (cb : List Nat → Int × (Nat → Buf)) (roles : List Nat),
      vt.receiveAllCb = some cb → senders ≠ [] →
      resolveRoles mapping senders = some roles → (cb roles).1 ≠ 0 →
      (receive_all_mp vt mapping senders msg0).rc = .netGeneral) ∧
    (∀ (vt : GoTransport) (mapping : List Nat) (receiver : Int) (msg : Buf)
       (cb : Nat → Buf → Int), vt.sendCb = some cb →
      role_for mapping receiver = none →
      transport_send vt mapping receiver msg = .badarg) ∧
    (∀ (vt : GoTransport) (mapping : List Nat) (sender : Int)
       (cb : Nat → Int × Buf), vt.receiveCb = some cb →
      role_for mapping sender = none →
      transport_receive vt mapping sender = .error .badarg) ∧
    (∀ (vt : GoTransport) (mapping : List Nat) (senders : List Int) (msg0 : List Buf)
       (cb : List Nat → Int × (Nat → Buf)), vt.receiveAllCb = some cb →
      senders ≠ [] → resolveRoles mapping senders = none →
      (receive_all_mp vt mapping senders msg0).rc = .badarg) ∧
    (∀ (vt : GoTransport) (mapping : List Nat) (senders : List Int) (msg0 : List Buf),
      senders.length ≠ 1 → (receive_all_2p vt mapping senders msg0).1 = .badarg) ∧
    (∀ (vt : GoTransport) (mapping : List Nat) (receiver : Int) (msg : Buf),
      vt.sendCb = none → transport_send vt mapping receiver msg = .netGeneral) ∧
    (∀ (vt : GoTransport) (mapping : List Nat) (sender : Int),
      vt.receiveCb = none → transport_receive vt mapping sender = .error .netGeneral) ∧
    (∀ (vt : GoTransport) (mapping : List Nat) (senders : List Int) (msg0 : List Buf),
      vt.receiveAllCb = none → (receive_all_mp vt mapping senders msg0).rc = .netGeneral) := by
  refine ⟨?_, ?_, ?_, ?_, ?_, ?_, ?_, ?_, ?_, ?_, ?_, ?_⟩
  · intro mapping idx hneg
    simp [role_for, hneg]
  · intro mapping idx hge
    unfold role_for
    split
    · rfl
    · exact List.get?_eq_none.mpr hge
  · intro vt mapping receiver msg cb role hcb hrole hnz
    simp [transport_send, hcb, hrole, hnz]
  · intro vt mapping sender cb role hcb hrole hnz
    simp [transport_receive, hcb, hrole, hnz]
  · intro vt mapping senders msg0 cb roles hcb hne hres hnz
    cases senders with
    | nil => exact absurd rfl hne
    | cons s rest => simp [receive_all_mp, hcb, hres, hnz]
  · intro vt mapping receiver msg cb hcb hrole
    simp [transport_send, hcb, hrole]
  · intro vt mapping sender cb hcb hrole
    simp [transport_receive, hcb, hrole]
  · intro vt mapping senders msg0 cb hcb hne hres
    cases senders with
    | nil => exact absurd rfl hne
    | cons s rest => simp [receive_all_mp, hcb, hres]
  · intro vt mapping senders msg0 hlen
    simp [receive_all_2p, hlen]
  · intro vt mapping receiver msg hcb
    simp [transport_send, hcb]
  · intro vt mapping sender hcb
    simp [transport_receive, hcb]
  · intro vt mapping senders msg0 hcb
    simp [receive_all_mp, hcb]

/-- C5 witness: concrete invocations landing in each error category of
the amended mapping. -/
theorem C5_witness :
    role_for [0, 1] (-1) = none ∧
    role_for [0, 1] 2 = none ∧
    transport_send vtFailEx [0, 1] 1 [8] = Rc.netGeneral ∧
    transport_receive vtFailEx [0, 1] 1 = Except.error Rc.netGeneral ∧
    (receive_all_mp vtFailEx [0, 1, 2] [0, 2] []).rc = Rc.netGeneral ∧
    transport_send vtOkEx [0, 1] 5 [8] = Rc.badarg ∧
    transport_receive vtOkEx [0, 1] (-3) = Except.error Rc.badarg ∧
    (receive_all_mp vtOkEx [0, 1, 2] [0, 9] []).rc = Rc.badarg ∧
    (receive_all_2p vtOkEx [0, 1] [] []).1 = Rc.badarg ∧
    transport_send vtNullEx [0, 1] 0 [] = Rc.netGeneral ∧
    transport_receive vtNullEx [0, 1] 0 = Except.error Rc.netGeneral ∧
    (receive_all_mp vtNullEx [0, 1] [0] []).rc = Rc.netGeneral := by
  refine ⟨?_, ?_, ?_, ?_, ?_, ?_, ?_, ?_, ?_, ?_, ?_, ?_⟩
  · exact C5_error_category_mapping.1 [0, 1] (-1) (by decide)
  · exact C5_error_category_mapping.2.1 [0, 1] 2 (by decide)
  · exact C5_error_category_mapping.2.2.1 vtFailEx [0, 1] 1 [8] _ 1 rfl rfl
      (by decide)
  · exact C5_error_category_mapping.2.2.2.1 vtFailEx [0, 1] 1 _ 1 rfl rfl
      (by decide)
  · exact C5_error_category_mapping.2.2.2.2.1 vtFailEx [0, 1, 2] [0, 2] [] _
      [0, 2] rfl (by decide) rfl (by decide)
  · exact C5_error_category_mapping.2.2.2.2.2.1 vtOkEx [0, 1] 5 [8] _ rfl rfl
  · exact C5_error_category_mapping.2.2.2.2.2.2.1 vtOkEx [0, 1] (-3) _ rfl rfl
  · exact C5_error_category_mapping.2.2.2.2.2.2.2.1 vtOkEx [0, 1, 2] [0, 9] [] _
      rfl (by decide) rfl
  · exact C5_error_category_mapping.2.2.2.2.2.2.2.2.1 vtOkEx [0, 1] [] []
      (by decide)
  · exact C5_error_category_mapping.2.2.2.2.2.2.2.2.2.1 vtNullEx [0, 1] 0 [] rfl
  · exact C5_error_category_mapping.2.2.2.2.2.2.2.2.2.2.1 vtNullEx [0, 1] 0 rfl
  · exact C5_error_category_mapping.2.2.2.2.2.2.2.2.2.2.2 vtNullEx [0, 1] [0] []
      rfl

/-- Pointwise reading of a successful sender-to-role resolution: the
role at each position is the resolution of the sender at that
position. -/
theorem resolveRoles_pointwise (mapping : List Nat) :
    ∀ (senders : List Int) (roles : List Nat),
      resolveRoles mapping senders = some roles →
      roles.length = senders.length ∧
      ∀ i : Nat, roles.get? i = (senders.get? i).bind (role_for mapping) := by
  intro senders
  induction senders with
  | nil =>
    intro roles h
    simp [resolveRoles] at h
    subst h
    exact ⟨rfl, fun i => by cases i <;> rfl⟩
  | cons s rest ih =>
    intro roles h
    simp only [resolveRoles] at h
    cases hr : role_for mapping s with
    | none => rw [hr] at h; simp at h
    | some r =>
      rw [hr] at h
      cases hrest : resolveRoles mapping rest with
      | none => rw [hrest] at h; simp at h
      | some rs =>
        rw [hrest] at h
        simp at h
        subst h
        obtain ⟨hlen, hpt⟩ := ih rs hrest
        refine ⟨by simp [hlen], ?_⟩
        intro i
        cases i with
        | zero => simp [hr]
        | succ k => simpa using hpt k

/-- C4: the multi-party adapter's receive_all, on a non-empty list of
in-range sender indices, performs exactly one batched callback whose
role array is the senders' resolved identities in input order, and on a
zero callback status the returned message list holds, at each position
i, the callback's positional output i — the result for the i-th
requested sender — for every input list. -/
theorem C4_receive_all_mp_batched_order :
    ∀ (vt : GoTransport) (mapping : List Nat) (senders : List Int) (msg0 : List Buf)
      (cb : List Nat → Int × (Nat → Buf)) (roles : List Nat),
      vt.receiveAllCb = some cb →
      senders ≠ [] →
      resolveRoles mapping senders = some roles →
      (receive_all_mp vt mapping senders msg0).calls = [roles] ∧
      roles.length = senders.length ∧
      (∀ i : Nat, roles.get? i = (senders.get? i).bind (role_for mapping)) ∧
      ((cb roles).1 = 0 →
        (receive_all_mp vt mapping senders msg0).message =
          (List.range senders.length).map (cb roles).2) := by
  intro vt mapping senders msg0 cb roles hcb hne hres
  obtain ⟨hlen, hpt⟩ := resolveRoles_pointwise mapping senders roles hres
  cases senders with
  | nil => exact absurd rfl hne
  | cons s rest =>
    by_cases hz : (cb roles).1 = 0
    · refine ⟨?_, hlen, hpt, ?_⟩
      · simp [receive_all_mp, hcb, hres, hz]
      · intro _
        simp [receive_all_mp, hcb, hres, hz]
    · refine ⟨?_, hlen, hpt, fun h => absurd h hz⟩
      simp [receive_all_mp, hcb, hres, hz]

/-- C4 witness: receive_all over senders 2, 0, 1 on the identity
mapping performs one batched callback carrying roles 2, 0, 1 and
returns the per-position callback outputs in input order. -/
theorem C4_witness :
    (receive_all_mp vtOkEx [0, 1, 2] [2, 0, 1] []).calls = [[2, 0, 1]] ∧
    ([2, 0, 1] : List Nat).length = ([2, 0, 1] : List Int).length ∧
    (∀ i : Nat, ([2, 0, 1] : List Nat).get? i =
      (([2, 0, 1] : List Int).get? i).bind (role_for [0, 1, 2])) ∧
    (receive_all_mp vtOkEx [0, 1, 2] [2, 0, 1] []).message =
      [[2, 0], [0, 1], [1, 2]] := by
  have h := C4_receive_all_mp_batched_order vtOkEx [0, 1, 2] [2, 0, 1] [] _
    [2, 0, 1] rfl (by decide) rfl
  refine ⟨h.1, h.2.1, h.2.2.1, ?_⟩
  rw [h.2.2.2 (by decide)]
  rfl

/-- C10: every scalar handle produced by cbmpc_scalar_from_bytes or
cbmpc_scalar_from_string is a cmem_t with size field 0 whose data field
is the address of the freshly allocated big-number object (not a byte
buffer); cbmpc_scalar_to_bytes dereferences that address and serializes
the stored value, and cbmpc_scalar_free deletes the stored object, both
ignoring the handle's size field entirely. -/
theorem C10_scalar_handle_representation :
    (∀ (h : ScalarHeap) (bytes : Cmem) (l : Buf),
      bytes.data = some l → 0 < bytes.size →
      (cbmpc_scalar_from_bytes h bytes true).2.1 = .ok ∧
      (cbmpc_scalar_from_bytes h bytes true).2.2 =
        some { data := some h.next, size := 0 } ∧
      heapGet (cbmpc_scalar_from_bytes h bytes true).1 h.next =
        some (bn_from_bin (readBytes bytes)) ∧
      (∀ (s : Int) (outOk allocOk : Bool),
        cbmpc_scalar_to_bytes (cbmpc_scalar_from_bytes h bytes true).1
            { data := some h.next, size := s } outOk allocOk =
          cbmpc_scalar_to_bytes (cbmpc_scalar_from_bytes h bytes true).1
            { data := some h.next, size := 0 } outOk allocOk) ∧
      cbmpc_scalar_to_bytes (cbmpc_scalar_from_bytes h bytes true).1
          { data := some h.next, size := 0 } true true =
        some (.ok, some (alloc_and_copy (bn_to_bin (bn_from_bin (readBytes bytes))) true)) ∧
      (∀ s : Int,
        cbmpc_scalar_free (cbmpc_scalar_from_bytes h bytes true).1
            { data := some h.next, size := s } =
          cbmpc_scalar_free (cbmpc_scalar_from_bytes h bytes true).1
            { data := some h.next, size := 0 } ∧
        (cbmpc_scalar_free (cbmpc_scalar_from_bytes h bytes true).1
            { data := some h.next, size := s }).isSome)) ∧
    (∀ (h : ScalarHeap) (s : String),
      (cbmpc_scalar_from_string h (some s) true).2.1 = .ok ∧
      (cbmpc_scalar_from_string h (some s) true).2.2 =
        some { data := some h.next, size := 0 } ∧
      heapGet (cbmpc_scalar_from_string h (some s) true).1 h.next =
        some ((decVal s : Int))) := by
  constructor
  · intro h bytes l hd hpos
    have hval : ¬ (bytes.data = none ∨ bytes.size ≤ 0 ∨ ¬ (true : Bool) = true) := by
      simp [hd, not_le.mpr hpos]
    have hfb : cbmpc_scalar_from_bytes h bytes true =
        ({ next := h.next + 1, objs := (h.next, bn_from_bin (readBytes bytes)) :: h.objs },
         .ok, some { data := some h.next, size := 0 }) := by
      simp [cbmpc_scalar_from_bytes, hd, not_le.mpr hpos]
    have hget : heapGet (cbmpc_scalar_from_bytes h bytes true).1 h.next =
        some (bn_from_bin (readBytes bytes)) := by
      rw [hfb]
      simp [heapGet]
    refine ⟨by rw [hfb], by rw [hfb], hget, ?_, ?_, ?_⟩
    · intro s outOk allocOk
      rfl
    · simp [cbmpc_scalar_to_bytes, hget]
    · intro s
      refine ⟨rfl, ?_⟩
      simp [cbmpc_scalar_free, hget]
  · intro h s
    refine ⟨rfl, rfl, ?_⟩
    simp [cbmpc_scalar_from_string, heapGet]

/-- C10 witness: from the empty heap, the handle built from bytes 1, 0
has address 0 and size 0, the stored value is 256, to_bytes serializes
it back, and free removes it whatever the size field says. -/
theorem C10_witness :
    (cbmpc_scalar_from_bytes { next := 0, objs := [] }
      { data := some [1, 0], size := 2 } true).2.2 =
      some { data := some 0, size := 0 } ∧
    heapGet (cbmpc_scalar_from_bytes { next := 0, objs := [] }
      { data := some [1, 0], size := 2 } true).1 0 =
      some (bn_from_bin (readBytes { data := some [1, 0], size := 2 })) ∧
    cbmpc_scalar_to_bytes (cbmpc_scalar_from_bytes { next := 0, objs := [] }
        { data := some [1, 0], size := 2 } true).1
        { data := some 0, size := 0 } true true =
      some (.ok, some (alloc_and_copy
        (bn_to_bin (bn_from_bin (readBytes { data := some [1, 0], size := 2 }))) true)) ∧
    (cbmpc_scalar_free (cbmpc_scalar_from_bytes { next := 0, objs := [] }
        { data := some [1, 0], size := 2 } true).1
        { data := some 0, size := 99 }).isSome := by
  have h := C10_scalar_handle_representation.1 { next := 0, objs := [] }
    { data := some [1, 0], size := 2 } [1, 0] rfl (by decide)
  exact ⟨h.2.1, h.2.2.1, h.2.2.2.2.1, (h.2.2.2.2.2 99).2⟩

/-- A copy whose resulting data pointer is null is the all-null view. -/
theorem alloc_and_copy_data_none (src : Buf) (allocOk : Bool) :
    (alloc_and_copy src allocOk).data = none →
    alloc_and_copy src allocOk = { data := none, size := 0 } := by
  unfold alloc_and_copy
  split
  · split
    · intro h
      simp at h
    · intro _
      rfl
  · intro _
    rfl

/-- When the backend sign returns SUCCESS, the engine reported SUCCESS
on the sid argument, sid_out holds the copy of the engine's final sid,
and that copy did not fail. -/
theorem sign_backend_success_shape (keyOk : Bool) (sid_in msg : Cmem)
    (eng : Buf → Rc × Buf × Buf) (aOk bOk : Bool)
    (hret : (cbmpc_ecdsa2p_sign_backend true keyOk sid_in msg true true eng aOk bOk).ret = .ok) :
    (eng (signSidArg sid_in)).1 = .ok ∧
    (cbmpc_ecdsa2p_sign_backend true keyOk sid_in msg true true eng aOk bOk).sidOut =
      some (alloc_and_copy (eng (signSidArg sid_in)).2.1 aOk) ∧
    ¬((alloc_and_copy (eng (signSidArg sid_in)).2.1 aOk).data = none ∧
      0 < (eng (signSidArg sid_in)).2.1.length) := by
  have hA := hret
  simp only [cbmpc_ecdsa2p_sign_backend] at hA ⊢
  split at hA
  next hc0 => simp at hA
  next hc0 =>
    split at hA
    next hc1 => simp at hA; exact absurd hA hc1
    next hc1 =>
      have hc1e : (eng (signSidArg sid_in)).1 = .ok := not_ne_iff.mp hc1
      split at hA
      next hc2 => simp at hA
      next hc2 =>
        split at hA
        next hc3 => simp at hA
        next hc3 =>
          refine ⟨hc1e, ?_, hc2⟩
          rw [if_neg hc0, if_neg hc1, if_neg hc2, if_neg hc3]

/-- When the bindings sign returns SUCCESS, the key deserialization and
the engine reported SUCCESS, sid_out holds the copy of the engine's
final sid, and that copy did not fail. -/
theorem sign_bindings_success_shape (sid_in key msg : Cmem) (kd : Rc)
    (eng : Buf → Rc × Buf × Buf) (aOk bOk : Bool)
    (hret : (cbmpc_ecdsa2p_sign_bindings true sid_in key msg true true kd eng aOk bOk).ret = .ok) :
    kd = .ok ∧
    (eng (signSidArg sid_in)).1 = .ok ∧
    (cbmpc_ecdsa2p_sign_bindings true sid_in key msg true true kd eng aOk bOk).sidOut =
      some (alloc_and_copy (eng (signSidArg sid_in)).2.1 aOk) ∧
    ¬((alloc_and_copy (eng (signSidArg sid_in)).2.1 aOk).data = none ∧
      0 < (eng (signSidArg sid_in)).2.1.length) := by
  have hA := hret
  simp only [cbmpc_ecdsa2p_sign_bindings] at hA ⊢
  split at hA
  next hc0 => simp at hA
  next hc0 =>
    split at hA
    next hcd => simp at hA; exact absurd hA hcd
    next hcd =>
      have hcde : kd = .ok := not_ne_iff.mp hcd
      split at hA
      next hc1 => simp at hA; exact absurd hA hc1
      next hc1 =>
        have hc1e : (eng (signSidArg sid_in)).1 = .ok := not_ne_iff.mp hc1
        split at hA
        next hc2 => simp at hA
        next hc2 =>
          split at hA
          next hc3 => simp at hA
          next hc3 =>
            refine ⟨hcde, hc1e, ?_, hc2⟩
            rw [if_neg hc0, if_neg hcd, if_neg hc1, if_neg hc2, if_neg hc3]

/-- A successful copy of a non-empty buffer is that buffer with its
length, provided the copy's data pointer is non-null. -/
theorem alloc_and_copy_of_ne (src : Buf) (allocOk : Bool) (hne : src ≠ [])
    (hdata : ¬((alloc_and_copy src allocOk).data = none ∧ 0 < src.length)) :
    alloc_and_copy src allocOk = { data := some src, size := (src.length : Int) } := by
  have hpos : 0 < src.length := List.length_pos.mpr hne
  cases allocOk with
  | false =>
    exfalso
    exact hdata ⟨by simp [alloc_and_copy, hpos], hpos⟩
  | true => simp [alloc_and_copy, hpos]

/-- The sid handed to the engine is exactly the bytes of a well-formed
non-empty sid_in view. -/
theorem signSidArg_of_wf (sid_in : Cmem) (l : Buf) (hd : sid_in.data = some l)
    (hs : sid_in.size = (l.length : Int)) (hne : l ≠ []) :
    signSidArg sid_in = l := by
  have hpos : 0 < sid_in.size := by
    rw [hs]
    exact_mod_cast List.length_pos.mpr hne
  simp [signSidArg, readBytes, hd, hs, hpos]

/-- The sid handed to the engine is empty when sid_in has null data or
non-positive size. -/
theorem signSidArg_of_empty (sid_in : Cmem)
    (h : sid_in.data = none ∨ sid_in.size ≤ 0) : signSidArg sid_in = [] := by
  cases h with
  | inl hd => simp [signSidArg, hd]
  | inr hs => simp [signSidArg, not_lt.mpr hs]

/-- C2: for both sign binding variants, under the engine's
use-or-generate sid contract: a caller-supplied non-empty sid_in is
passed to the engine as exactly its bytes and returned unchanged in
sid_out on success; an empty sid_in (null data or non-positive size)
yields a non-empty generated sid_out on success; and a generated sid
fed back as input is returned unchanged again (idempotent reuse). -/
theorem C2_sid_use_or_generate :
    ∀ eng : Buf → Rc × Buf × Buf,
      (∀ s : Buf, s ≠ [] → (eng s).1 = .ok → (eng s).2.1 = s) →
      ((eng []).1 = .ok → (eng []).2.1 ≠ []) →
      (∀ (sid_in msg key : Cmem) (l : Buf) (keyOk : Bool) (kd : Rc) (aOk bOk : Bool),
        sid_in.data = some l → sid_in.size = (l.length : Int) → l ≠ [] →
        signSidArg sid_in = l ∧
        ((cbmpc_ecdsa2p_sign_backend true keyOk sid_in msg true true eng aOk bOk).ret = .ok →
          (cbmpc_ecdsa2p_sign_backend true keyOk sid_in msg true true eng aOk bOk).sidOut =
            some { data := some l, size := (l.length : Int) }) ∧
        ((cbmpc_ecdsa2p_sign_bindings true sid_in key msg true true kd eng aOk bOk).ret = .ok →
          (cbmpc_ecdsa2p_sign_bindings true sid_in key msg true true kd eng aOk bOk).sidOut =
            some { data := some l, size := (l.length : Int) })) ∧
      (∀ (sid_in msg key : Cmem) (keyOk : Bool) (kd : Rc) (aOk bOk : Bool),
        (sid_in.data = none ∨ sid_in.size ≤ 0) →
        ((cbmpc_ecdsa2p_sign_backend true keyOk sid_in msg true true eng aOk bOk).ret = .ok →
          ∃ g : Buf, g ≠ [] ∧
            (cbmpc_ecdsa2p_sign_backend true keyOk sid_in msg true true eng aOk bOk).sidOut =
              some { data := some g, size := (g.length : Int) }) ∧
        ((cbmpc_ecdsa2p_sign_bindings true sid_in key msg true true kd eng aOk bOk).ret = .ok →
          ∃ g : Buf, g ≠ [] ∧
            (cbmpc_ecdsa2p_sign_bindings true sid_in key msg true true kd eng aOk bOk).sidOut =
              some { data := some g, size := (g.length : Int) })) ∧
      (∀ (g : Buf) (msg key : Cmem) (keyOk : Bool) (kd : Rc) (aOk bOk : Bool), g ≠ [] →
        ((cbmpc_ecdsa2p_sign_backend true keyOk { data := some g, size := (g.length : Int) }
            msg true true eng aOk bOk).ret = .ok →
          (cbmpc_ecdsa2p_sign_backend true keyOk { data := some g, size := (g.length : Int) }
            msg true true eng aOk bOk).sidOut =
            some { data := some g, size := (g.length : Int) }) ∧
        ((cbmpc_ecdsa2p_sign_bindings true { data := some g, size := (g.length : Int) }
            key msg true true kd eng aOk bOk).ret = .ok →
          (cbmpc_ecdsa2p_sign_bindings true { data := some g, size := (g.length : Int) }
            key msg true true kd eng aOk bOk).sidOut =
            some { data := some g, size := (g.length : Int) })) := by
  intro eng hUse hGen
  have useBack : ∀ (sid_in msg : Cmem) (l : Buf) (keyOk : Bool) (aOk bOk : Bool),
      sid_in.data = some l → sid_in.size = (l.length : Int) → l ≠ [] →
      (cbmpc_ecdsa2p_sign_backend true keyOk sid_in msg true true eng aOk bOk).ret = .ok →
      (cbmpc_ecdsa2p_sign_backend true keyOk sid_in msg true true eng aOk bOk).sidOut =
        some { data := some l, size := (l.length : Int) } := by
    intro sid_in msg l keyOk aOk bOk hd hs hne hret
    obtain ⟨h1, h2, h3⟩ := sign_backend_success_shape keyOk sid_in msg eng aOk bOk hret
    have harg := signSidArg_of_wf sid_in l hd hs hne
    rw [harg] at h1 h2 h3
    have he : (eng l).2.1 = l := hUse l hne h1
    rw [he] at h2 h3
    rw [alloc_and_copy_of_ne l aOk hne h3] at h2
    exact h2
  have useBind : ∀ (sid_in key msg : Cmem) (l : Buf) (kd : Rc) (aOk bOk : Bool),
      sid_in.data = some l → sid_in.size = (l.length : Int) → l ≠ [] →
      (cbmpc_ecdsa2p_sign_bindings true sid_in key msg true true kd eng aOk bOk).ret = .ok →
      (cbmpc_ecdsa2p_sign_bindings true sid_in key msg true true kd eng aOk bOk).sidOut =
        some { data := some l, size := (l.length : Int) } := by
    intro sid_in key msg l kd aOk bOk hd hs hne hret
    obtain ⟨_, h1, h2, h3⟩ := sign_bindings_success_shape sid_in key msg kd eng aOk bOk hret
    have harg := signSidArg_of_wf sid_in l hd hs hne
    rw [harg] at h1 h2 h3
    have he : (eng l).2.1 = l := hUse l hne h1
    rw [he] at h2 h3
    rw [alloc_and_copy_of_ne l aOk hne h3] at h2
    exact h2
  refine ⟨?_, ?_, ?_⟩
  · intro sid_in msg key l keyOk kd aOk bOk hd hs hne
    exact ⟨signSidArg_of_wf sid_in l hd hs hne,
      useBack sid_in msg l keyOk aOk bOk hd hs hne,
      useBind sid_in key msg l kd aOk bOk hd hs hne⟩
  · intro sid_in msg key keyOk kd aOk bOk hempty
    have harg := signSidArg_of_empty sid_in hempty
    constructor
    · intro hret
      obtain ⟨h1, h2, h3⟩ := sign_backend_success_shape keyOk sid_in msg eng aOk bOk hret
      rw [harg] at h1 h2 h3
      have hg : (eng []).2.1 ≠ [] := hGen h1
      rw [alloc_and_copy_of_ne _ aOk hg h3] at h2
      exact ⟨(eng []).2.1, hg, h2⟩
    · intro hret
      obtain ⟨_, h1, h2, h3⟩ := sign_bindings_success_shape sid_in key msg kd eng aOk bOk hret
      rw [harg] at h1 h2 h3
      have hg : (eng []).2.1 ≠ [] := hGen h1
      rw [alloc_and_copy_of_ne _ aOk hg h3] at h2
      exact ⟨(eng []).2.1, hg, h2⟩
  · intro g msg key keyOk kd aOk bOk hg
    exact ⟨useBack _ msg g keyOk aOk bOk rfl rfl hg,
      useBind _ key msg g kd aOk bOk rfl rfl hg⟩

/-- C2 witness: with a concrete contract-satisfying engine, a supplied
sid 1, 2 comes back unchanged, an empty sid yields the generated
non-empty sid 7, and feeding 7 back returns 7 unchanged. -/
theorem C2_witness :
    signSidArg { data := some [1, 2], size := 2 } = [1, 2] ∧
    (cbmpc_ecdsa2p_sign_backend true true { data := some [1, 2], size := 2 }
        { data := some [3], size := 1 } true true engEx true true).sidOut =
      some { data := some [1, 2], size := 2 } ∧
    (∃ g : Buf, g ≠ [] ∧
      (cbmpc_ecdsa2p_sign_backend true true { data := none, size := 0 }
          { data := some [3], size := 1 } true true engEx true true).sidOut =
        some { data := some g, size := (g.length : Int) }) ∧
    (cbmpc_ecdsa2p_sign_bindings true { data := some [7], size := 1 }
        { data := some [4], size := 1 } { data := some [3], size := 1 }
        true true Rc.ok engEx true true).sidOut =
      some { data := some [7], size := 1 } := by
  have hUse : ∀ s : Buf, s ≠ [] → (engEx s).1 = .ok → (engEx s).2.1 = s := by
    intro s hne _
    simp [engEx, List.isEmpty_iff, hne]
  have hGen : (engEx []).1 = .ok → (engEx []).2.1 ≠ [] := by
    intro _
    simp [engEx]
  have h := C2_sid_use_or_generate engEx hUse hGen
  refine ⟨?_, ?_, ?_, ?_⟩
  · exact (h.1 { data := some [1, 2], size := 2 } { data := some [3], size := 1 }
      { data := some [4], size := 1 } [1, 2] true Rc.ok true true rfl (by decide)
      (by decide)).1
  · exact (h.1 { data := some [1, 2], size := 2 } { data := some [3], size := 1 }
      { data := some [4], size := 1 } [1, 2] true Rc.ok true true rfl (by decide)
      (by decide)).2.1 (by decide)
  · exact (h.2.1 { data := none, size := 0 } { data := some [3], size := 1 }
      { data := some [4], size := 1 } true Rc.ok true true (Or.inl rfl)).1
      (by decide)
  · exact (h.2.2 [7] { data := some [3], size := 1 } { data := some [4], size := 1 }
      true Rc.ok true true (by decide)).2 (by decide)

/-- C1: in both sign binding variants, when the sid_out copy succeeded
(non-empty engine sid, allocation succeeded) and the signature copy
then fails, the call zeroes the sid_out allocation, frees it, resets
its fields to null/0 and returns E_BADARG — and on every failing
return of either variant, each out-parameter is either untouched or
left as the null/0 view, so no output buffer remains with the
caller. -/
theorem C1_partial_failure_cleanup :
    (∀ (keyOk : Bool) (sid_in msg : Cmem) (eng : Buf → Rc × Buf × Buf) (sid2 sg : Buf),
      keyOk = true → msg.data ≠ none → ¬ msg.size ≤ 0 →
      eng (signSidArg sid_in) = (.ok, sid2, sg) → sid2 ≠ [] → sg ≠ [] →
      cbmpc_ecdsa2p_sign_backend true keyOk sid_in msg true true eng true false =
        { ret := .badarg
          sidOut := some { data := none, size := 0 }
          sigOut := some { data := none, size := 0 }
          sidReleased := some (List.replicate sid2.length 0) }) ∧
    (∀ (sid_in key msg : Cmem) (eng : Buf → Rc × Buf × Buf) (sid2 sg : Buf),
      key.data ≠ none → ¬ key.size ≤ 0 → msg.data ≠ none → ¬ msg.size ≤ 0 →
      eng (signSidArg sid_in) = (.ok, sid2, sg) → sid2 ≠ [] → sg ≠ [] →
      cbmpc_ecdsa2p_sign_bindings true sid_in key msg true true .ok eng true false =
        { ret := .badarg
          sidOut := some { data := none, size := 0 }
          sigOut := some { data := none, size := 0 }
          sidReleased := some (List.replicate sid2.length 0) }) ∧
    (∀ (jobOk keyOk : Bool) (sid_in msg : Cmem) (p q : Bool)
       (eng : Buf → Rc × Buf × Buf) (aOk bOk : Bool),
      (cbmpc_ecdsa2p_sign_backend jobOk keyOk sid_in msg p q eng aOk bOk).ret ≠ .ok →
      ((cbmpc_ecdsa2p_sign_backend jobOk keyOk sid_in msg p q eng aOk bOk).sidOut = none ∨
        (cbmpc_ecdsa2p_sign_backend jobOk keyOk sid_in msg p q eng aOk bOk).sidOut =
          some { data := none, size := 0 }) ∧
      ((cbmpc_ecdsa2p_sign_backend jobOk keyOk sid_in msg p q eng aOk bOk).sigOut = none ∨
        (cbmpc_ecdsa2p_sign_backend jobOk keyOk sid_in msg p q eng aOk bOk).sigOut =
          some { data := none, size := 0 })) ∧
    (∀ (jobOk : Bool) (sid_in key msg : Cmem) (p q : Bool) (kd : Rc)
       (eng : Buf → Rc × Buf × Buf) (aOk bOk : Bool),
      (cbmpc_ecdsa2p_sign_bindings jobOk sid_in key msg p q kd eng aOk bOk).ret ≠ .ok →
      ((cbmpc_ecdsa2p_sign_bindings jobOk sid_in key msg p q kd eng aOk bOk).sidOut = none ∨
        (cbmpc_ecdsa2p_sign_bindings jobOk sid_in key msg p q kd eng aOk bOk).sidOut =
          some { data := none, size := 0 }) ∧
      ((cbmpc_ecdsa2p_sign_bindings jobOk sid_in key msg p q kd eng aOk bOk).sigOut = none ∨
        (cbmpc_ecdsa2p_sign_bindings jobOk sid_in key msg p q kd eng aOk bOk).sigOut =
          some { data := none, size := 0 })) := by
  refine ⟨?_, ?_, ?_, ?_⟩
  · intro keyOk sid_in msg eng sid2 sg hk hmd hms heng h2 hsg
    subst hk
    have hpos2 : 0 < sid2.length := List.length_pos.mpr h2
    have hposg : 0 < sg.length := List.length_pos.mpr hsg
    simp [cbmpc_ecdsa2p_sign_backend, heng, alloc_and_copy, hpos2, hposg,
      hmd, hms]
  · intro sid_in key msg eng sid2 sg hkd hks hmd hms heng h2 hsg
    have hpos2 : 0 < sid2.length := List.length_pos.mpr h2
    have hposg : 0 < sg.length := List.length_pos.mpr hsg
    simp [cbmpc_ecdsa2p_sign_bindings, heng, alloc_and_copy, free_cmem_view,
      hpos2, hposg, hkd, hks, hmd, hms]
  · intro jobOk keyOk sid_in msg p q eng aOk bOk hret
    simp only [cbmpc_ecdsa2p_sign_backend] at hret ⊢
    split at hret
    next hc0 =>
      rw [if_pos hc0]
      simp
    next hc0 =>
      rw [if_neg hc0]
      split at hret
      next hc1 =>
        rw [if_pos hc1]
        simp
      next hc1 =>
        rw [if_neg hc1]
        split at hret
        next hc2 =>
          rw [if_pos hc2]
          refine ⟨Or.inr ?_, Or.inl rfl⟩
          exact congrArg some (alloc_and_copy_data_none _ aOk hc2.1)
        next hc2 =>
          rw [if_neg hc2]
          split at hret
          next hc3 =>
            rw [if_pos hc3]
            refine ⟨Or.inr rfl, Or.inr ?_⟩
            exact congrArg some (alloc_and_copy_data_none _ bOk hc3.1)
          next hc3 =>
            simp at hret
  · intro jobOk sid_in key msg p q kd eng aOk bOk hret
    simp only [cbmpc_ecdsa2p_sign_bindings] at hret ⊢
    split at hret
    next hc0 =>
      rw [if_pos hc0]
      simp
    next hc0 =>
      rw [if_neg hc0]
      split at hret
      next hcd =>
        rw [if_pos hcd]
        simp
      next hcd =>
        rw [if_neg hcd]
        split at hret
        next hc1 =>
          rw [if_pos hc1]
          simp
        next hc1 =>
          rw [if_neg hc1]
          split at hret
          next hc2 =>
            rw [if_pos hc2]
            refine ⟨Or.inr ?_, Or.inl rfl⟩
            exact congrArg some (alloc_and_copy_data_none _ aOk hc2.1)
          next hc2 =>
            rw [if_neg hc2]
            split at hret
            next hc3 =>
              rw [if_pos hc3]
              refine ⟨Or.inr rfl, Or.inr ?_⟩
              exact congrArg some (alloc_and_copy_data_none _ bOk hc3.1)
            next hc3 =>
              simp at hret

/-- C1 witness: with the constant engine, sid allocation succeeding and
signature allocation failing, both variants return E_BADARG with both
out-parameters reset to null/0 and the sid allocation zeroed at
release; and a failing validation return leaves both out-parameters
unwritten. -/
theorem C1_witness :
    cbmpc_ecdsa2p_sign_backend true true { data := some [5], size := 1 }
        { data := some [3], size := 1 } true true engConstEx true false =
      { ret := .badarg
        sidOut := some { data := none, size := 0 }
        sigOut := some { data := none, size := 0 }
        sidReleased := some (List.replicate ([1, 1] : Buf).length 0) } ∧
    cbmpc_ecdsa2p_sign_bindings true { data := some [5], size := 1 }
        { data := some [4], size := 1 } { data := some [3], size := 1 }
        true true .ok engConstEx true false =
      { ret := .badarg
        sidOut := some { data := none, size := 0 }
        sigOut := some { data := none, size := 0 }
        sidReleased := some (List.replicate ([1, 1] : Buf).length 0) } ∧
    ((cbmpc_ecdsa2p_sign_backend true false { data := some [5], size := 1 }
        { data := some [3], size := 1 } true true engConstEx true true).sidOut = none ∨
      (cbmpc_ecdsa2p_sign_backend true false { data := some [5], size := 1 }
        { data := some [3], size := 1 } true true engConstEx true true).sidOut =
        some { data := none, size := 0 }) := by
  refine ⟨?_, ?_, ?_⟩
  · exact C1_partial_failure_cleanup.1 true { data := some [5], size := 1 }
      { data := some [3], size := 1 } engConstEx [1, 1] [2, 2] rfl (by decide)
      (by decide) rfl (by decide) (by decide)
  · exact C1_partial_failure_cleanup.2.1 { data := some [5], size := 1 }
      { data := some [4], size := 1 } { data := some [3], size := 1 }
      engConstEx [1, 1] [2, 2] (by decide) (by decide) (by decide) (by decide)
      rfl (by decide) (by decide)
  · exact (C1_partial_failure_cleanup.2.2.1 true false { data := some [5], size := 1 }
      { data := some [3], size := 1 } true true engConstEx true true (by decide)).1

end Cbmpc
